import Mathlib

/-!
Shallow embedding of `langkit/gdb/commands.py`: the GDB `state` and `break`
commands (argument parsing, state rendering, breakpoint location resolution
with its interactive disambiguation protocol).

Modelling conventions:
* printed output is a `List String` of lines (one `print` call per line);
* `gdb.Breakpoint(...)` creation is modelled by returning a `Breakpoint` value;
* an uncaught Python exception is the `PyResult.exc` constructor;
* user input at the disambiguation prompt is `Option String`
  (`none` = end of input, i.e. `EOFError` from `raw_input`);
* the external collaborators that `commands.py` merely consumes
  (`decode_state`, `frame.read_var`, `name_repr` / `expr_repr` / `prop_repr`,
  condition validity in the host debugger) are explicit parameters.
-/

/-- Characters with surrounding whitespace removed (Python `str.strip()`). -/
def trimChars (cs : List Char) : List Char :=
  ((cs.dropWhile Char.isWhitespace).reverse.dropWhile Char.isWhitespace).reverse

/-- Python `str.lower()` (char-wise lowering, as GDB's Ada lookup needs). -/
def pyLower (s : String) : String :=
  String.mk (s.data.map Char.toLower)

/-- Python `s.startswith(p)`. -/
def pyStartsWith (s p : String) : Bool :=
  p.data.isPrefixOf s.data

/-- Whitespace splitting with an accumulator (structural recursion, so that
the kernel can evaluate it). -/
def splitWS : List Char → List Char → List String
  | [], cur => if cur.isEmpty then [] else [String.mk cur.reverse]
  | c :: rest, cur =>
    if c.isWhitespace then
      (if cur.isEmpty then [] else [String.mk cur.reverse]) ++ splitWS rest []
    else splitWS rest (c :: cur)

/-- Python `str.split()` (split on whitespace runs, dropping empty tokens). -/
def pySplit (s : String) : List String :=
  splitWS s.data []

/-- Python `s.split(sep)` for a one-character separator (empty tokens kept). -/
def splitCharAux (sep : Char) : List Char → List Char → List String
  | [], cur => [String.mk cur.reverse]
  | c :: rest, cur =>
    if c == sep then String.mk cur.reverse :: splitCharAux sep rest []
    else splitCharAux sep rest (c :: cur)

/-- Python `s.split(sep)` on a whole string. -/
def splitChar (sep : Char) (s : String) : List String :=
  splitCharAux sep s.data []

/-- Decimal-digit parsing of a character list (the core of Python `int`). -/
def digitsCore (ds : List Char) : Option Nat :=
  if !ds.isEmpty && ds.all Char.isDigit then
    some (ds.foldl (fun acc c => acc * 10 + (c.toNat - 48)) 0)
  else none

/-- Python `s.strip().split(None, 2)`: at most two splits on whitespace runs;
the remainder after the second split is kept verbatim (internal whitespace
preserved; leading whitespace of the remainder is consumed as the separator,
trailing whitespace is gone because of `strip`). -/
def pySplitMax2 (s : String) : List String :=
  let cs := (trimChars s.data).dropWhile Char.isWhitespace
  if cs.isEmpty then []
  else
    let t1 := cs.takeWhile (fun c => ¬ c.isWhitespace)
    let r1 := ((cs.dropWhile (fun c => ¬ c.isWhitespace)).dropWhile Char.isWhitespace)
    if r1.isEmpty then [String.mk t1]
    else
      let t2 := r1.takeWhile (fun c => ¬ c.isWhitespace)
      let r2 := ((r1.dropWhile (fun c => ¬ c.isWhitespace)).dropWhile Char.isWhitespace)
      if r2.isEmpty then [String.mk t1, String.mk t2]
      else [String.mk t1, String.mk t2, String.mk r2]

/-- Python `int(s)`: strip whitespace, optional sign, decimal digits;
`none` models the `ValueError`. -/
def pyInt (s : String) : Option Int :=
  match trimChars s.data with
  | '-' :: rest => (digitsCore rest).map (fun n => -(n : Int))
  | '+' :: rest => (digitsCore rest).map (fun n => (n : Int))
  | t => (digitsCore t).map (fun n => (n : Int))

/-- Python `str.rjust`: left-pad with spaces up to width `w`. -/
def pyRjust (s : String) (w : Nat) : String :=
  if s.length < w then String.mk (List.replicate (w - s.length) ' ') ++ s else s

/-- Python truthiness of an optional string (`None` and `''` are falsy). -/
def pyTruthy : Option String → Bool
  | none => false
  | some s => !(s == "")

/-! ## Data model for the state printer

`commands.py` consumes these through `context.decode_state` (built elsewhere);
the fields below are exactly the attributes `StatePrinter._render` reads. -/

/-- A variable binding: spec-level name and generated-code variable name. -/
structure Binding where
  dsl_name : String
  gen_name : String
deriving DecidableEq

/-- An expression event as consumed by the renderer: the generated variable
holding its result, and (for the in-flight expression) its optional DSL
source location, rendered as text. -/
structure ExprEvt where
  result_var : String
  dsl_sloc : Option String
deriving DecidableEq

/-- One scope of the decoded state.  `doneExprs`/`lastStarted` are the two
components returned by `scope_state.sorted_expressions()` (computed by the
external state decoder): finished expressions in completion order, and the
at-most-one in-flight expression. -/
structure ScopeState where
  bindings : List Binding
  doneExprs : List ExprEvt
  lastStarted : Option ExprEvt
deriving DecidableEq

/-- The property named by the snapshot header (its optional declaration
location, rendered as text). -/
structure PropInfo where
  dsl_sloc : Option String
deriving DecidableEq

/-- The decoded state snapshot, as read by `StatePrinter._render`. -/
structure DecodedState where
  property : PropInfo
  in_memoization_lookup : Bool
  scopes : List ScopeState
deriving DecidableEq

/-- The external collaborators of the renderer: the colour/format helpers of
`langkit.gdb.utils` and the frame's `read_var` (variable name → value image,
i.e. `str(frame.read_var n)`). -/
structure RenderCtx where
  name_repr : Binding → String
  expr_repr : ExprEvt → String
  prop_repr : PropInfo → String
  frame : String → String

namespace StatePrinter

/-- `StatePrinter.ellipsis_limit`. -/
def ellipsis_limit : Nat := 50

/-- `StatePrinter.loc_image`: with the `s` flag, annotate with the
generated-code variable name. -/
def loc_image (with_locs : Bool) (var_name : String) : String :=
  if with_locs then " (" ++ var_name ++ ")" else ""

/-- `StatePrinter.value_image`: read the variable through the frame using the
lower-cased name (GDB's Ada API is queried lower-case), then apply the
ellipsis truncation. -/
def value_image (frame : String → String) (with_ellipsis : Bool)
    (var_name : String) : String :=
  let value := frame (pyLower var_name)
  if with_ellipsis ∧ ellipsis_limit < value.length then
    value.take ellipsis_limit ++ "..."
  else value

/-- The `print_binding` line of `StatePrinter._render`:
`name_repr(b) + loc_image(gen_name) + " = " + value_image(gen_name)`. -/
def print_binding (ctx : RenderCtx) (we wl : Bool) (b : Binding) : String :=
  ctx.name_repr b ++ loc_image wl b.gen_name ++ " = "
    ++ value_image ctx.frame we b.gen_name

/-- A finished-expression line:
`expr_repr(e) + loc_image(result_var) + " -> " + value_image(result_var)`. -/
def doneExprLine (ctx : RenderCtx) (we wl : Bool) (e : ExprEvt) : String :=
  ctx.expr_repr e ++ loc_image wl e.result_var ++ " -> "
    ++ value_image ctx.frame we e.result_var

/-- The lines printed for the in-flight expression of a scope, if any. -/
def scopeCurrLines (ctx : RenderCtx) (ss : ScopeState) : List String :=
  match ss.lastStarted with
  | none => []
  | some e =>
    ("Currently evaluating " ++ ctx.expr_repr e) ::
    (match e.dsl_sloc with
     | some sl => ["from " ++ sl]
     | none => [])

/-- One `print_info` call: the `is_first` flag makes the first emitted line of
a scope group be preceded by a blank line. State is (output so far, is_first). -/
def printInfoStep (acc : List String × Bool) (line : String) :
    List String × Bool :=
  if acc.2 then (acc.1 ++ ["", line], false) else (acc.1 ++ [line], false)

/-- The body of the `for scope_state in self.state.scopes` loop: emit the
scope's bindings, then its finished expressions, then the in-flight
expression, all through `print_info`. -/
def renderScope (ctx : RenderCtx) (we wl : Bool) (out : List String)
    (ss : ScopeState) : List String :=
  ((scopeCurrLines ctx ss).foldl printInfoStep
    (ss.doneExprs.foldl
      (fun a e => printInfoStep a (doneExprLine ctx we wl e))
      (ss.bindings.foldl
        (fun a b => printInfoStep a (print_binding ctx we wl b))
        (out, true)))).1

/-- `find_binding`: the nested `for scope_state in scopes: for b in
scope_state.bindings: if b.dsl_name == var_name: ... return` search. -/
def find_binding : List ScopeState → String → Option Binding
  | [], _ => none
  | ss :: rest, v =>
    match ss.bindings.find? (fun b => b.dsl_name == v) with
    | some b => some b
    | none => find_binding rest v

/-- `StatePrinter._render`, producing the list of printed lines. -/
def renderLines (ctx : RenderCtx) (we wl : Bool) (var_name : Option String)
    (state : Option DecodedState) : List String :=
  match state with
  | none => ["Selected frame is not in a property."]
  | some st =>
    if pyTruthy var_name then
      match find_binding st.scopes (var_name.getD "") with
      | some b => [print_binding ctx we wl b]
      | none => ["No binding called " ++ var_name.getD ""]
    else
      let out := ["Running " ++ ctx.prop_repr st.property]
      let out := out ++ (match st.property.dsl_sloc with
        | some sl => ["from " ++ sl]
        | none => [])
      let out := out ++ (if st.in_memoization_lookup
        then ["About to return a memoized result..."] else [])
      st.scopes.foldl (renderScope ctx we wl) out

end StatePrinter

namespace StateCommand

/-- The tail of `StateCommand.invoke` after flag validation: take the optional
variable-name argument, report (but, as written, do not stop on) extra
arguments, then run the printer. -/
def invokeRest (ctx : RenderCtx) (state : Option DecodedState) (flags : List Char)
    (args : List String) : List String :=
  let var_name := args.head?
  let extra := args.drop 1
  (if !extra.isEmpty
   then ["Invalid extra arguments: " ++ " ".intercalate extra] else [])
  ++ StatePrinter.renderLines ctx (!flags.contains 'f') (flags.contains 's')
      var_name state

/-- `StateCommand.invoke`: split the argument line, process a leading `/xyz`
flags token, then delegate.  (The original prints the invalid flag characters
in Python-set iteration order; occurrence order is used here — no claim
depends on that order.) -/
def invoke (ctx : RenderCtx) (state : Option DecodedState) (arg : String) :
    List String :=
  match pySplit arg with
  | tok :: rest =>
    if pyStartsWith tok "/" then
      let flags := tok.toList.drop 1
      let invalid_flags := flags.filter (fun c => !(c == 's' || c == 'f'))
      if !invalid_flags.isEmpty then
        ["Invalid flags: "
          ++ ", ".intercalate (invalid_flags.map (fun c => String.mk [c]))]
      else invokeRest ctx state flags rest
    else invokeRest ctx state [] (tok :: rest)
  | [] => invokeRest ctx state [] []

end StateCommand

/-! ## Data model for breakpoint resolution

`BreakCommand` walks `context.debug_info` (parsed elsewhere, in
`langkit/gdb/debug_info.py`, which is not part of the sources at hand); the
location type and its matching relation are therefore modelled from the spec,
while all command logic below is translated from `commands.py`. -/

/-- Modelled from the spec: a `SpecLocation`/`DSLLocation` — file, line and
optional column (`debug_info.py` is not among the sources). -/
structure DSLLocation where
  file : String
  line : Nat
  column : Option Nat
deriving DecidableEq

/-- Modelled from the spec: the partial-order matching relation — a
column-less query matches any stored location on the same file/line; a
column-bearing query requires the exact column. -/
def DSLLocation.matchesLoc (stored query : DSLLocation) : Bool :=
  match query.column with
  | none => stored.file == query.file && stored.line == query.line
  | some c =>
    stored.file == query.file && stored.line == query.line
      && stored.column == some c

/-- Modelled from the spec: parsing the user-facing `file:line` form
(`file:line:column` in the richer internal form). -/
def DSLLocation.parse (s : String) : DSLLocation :=
  match splitChar ':' s with
  | [f, l] => ⟨f, (digitsCore l.data).getD 0, none⟩
  | [f, l, c] => ⟨f, (digitsCore l.data).getD 0, digitsCore c.data⟩
  | _ => ⟨s, 0, none⟩

/-- Modelled from the spec: the textual image of a location (used only inside
user-facing messages). -/
def DSLLocation.str (l : DSLLocation) : String :=
  l.file ++ ":" ++ toString l.line
    ++ (match l.column with
        | some c => ":" ++ toString c
        | none => "")

/-- An event of a scope of the debug-info tree, as traversed by
`BreakCommand.break_on_dsl_sloc.process_scope`: a nested `Scope`, an
`ExprStart` (with optional DSL location and generated-code line), or any
other event kind (ignored by the traversal). -/
inductive Event where
  | scope (events : List Event)
  | exprStart (dsl_sloc : Option DSLLocation) (line_no : Nat)
  | otherEvent

/-- A property of the debug-info index: qualified name, optional
generated-code body start line, and its outermost scope's events. -/
structure PropertyT where
  name : String
  body_start : Option Nat
  events : List Event

/-- The `Match` namedtuple of `break_on_dsl_sloc` (owning property's name,
precise location, generated-code line). -/
structure MatchT where
  prop : String
  dsl_sloc : DSLLocation
  line_no : Nat
deriving DecidableEq

/-- The `process_scope` recursion: collect, in traversal order, every
`ExprStart` event with a DSL location matching the query.  Nested scopes are
processed in place. -/
def processEvents (query : DSLLocation) (propName : String) :
    List Event → List MatchT
  | [] => []
  | Event.scope evs :: rest =>
    processEvents query propName evs ++ processEvents query propName rest
  | Event.exprStart osl ln :: rest =>
    (match osl with
     | some sl =>
       if sl.matchesLoc query then [⟨propName, sl, ln⟩] else []
     | none => []) ++ processEvents query propName rest
  | Event.otherEvent :: rest => processEvents query propName rest

/-- The `for prop in self.context.debug_info.properties: process_scope(prop,
prop)` loop: match collection over all properties, in discovery order. -/
def collectMatches (query : DSLLocation) (props : List PropertyT) :
    List MatchT :=
  (props.map (fun p => processEvents query p.name p.events)).flatten

/-- A created breakpoint (`gdb.Breakpoint` plus its optional condition). -/
structure Breakpoint where
  filename : String
  line_no : Nat
  condition : Option String := none
deriving DecidableEq

/-- Result of running a command body: printed lines plus either a value or an
uncaught Python exception (by exception-class name). -/
inductive PyResult (α : Type) where
  | ok (out : List String) (val : α)
  | exc (out : List String) (excName : String)
deriving DecidableEq

/-- The breakpoint of a completed resolution, if any. -/
def PyResult.bpOf : PyResult (Option Breakpoint) → Option Breakpoint
  | .ok _ v => v
  | .exc _ _ => none

/-- Whether the run ended in an uncaught exception. -/
def PyResult.isExc : {α : Type} → PyResult α → Bool
  | _, .ok _ _ => false
  | _, .exc _ _ => true

namespace BreakCommand

/-- `BreakCommand.break_on_property`: case-insensitive lookup of the first
property with the given qualified name, then breakpoint on its body start.
Returns (printed lines, created breakpoint if any). -/
def break_on_property (filename : String) (props : List PropertyT)
    (qualname : String) : List String × Option Breakpoint :=
  match props.find? (fun p => pyLower p.name == pyLower qualname) with
  | none => (["No such property: " ++ qualname], none)
  | some prop =>
    match prop.body_start with
    | none => (["Cannot break on " ++ prop.name ++ ": it has no code"], none)
    | some line => ([], some ⟨filename, line, none⟩)

/-- `'[{}] '.format(i)`. -/
def idx_fmt (i : Nat) : String := "[" ++ toString i ++ "] "

/-- The two lines printed per match by the disambiguation listing. -/
def listingLines (filename : String) (ms : List MatchT) : List String :=
  let w := (idx_fmt ms.length).length
  (ms.enum.map (fun im =>
    [pyRjust (idx_fmt (im.1 + 1)) w ++ "In " ++ im.2.prop ++ ", "
       ++ im.2.dsl_sloc.str,
     String.mk (List.replicate w ' ') ++ "at " ++ filename ++ ":"
       ++ toString im.2.line_no])).flatten

/-- The interactive tail of `break_on_dsl_sloc` for multiple matches: prompt,
read a choice, validate it, then index `matches[choice]` — note the source
indexes with the raw (1-based-validated) choice, so Python list indexing can
raise `IndexError`.  `pre` is the output printed before the prompt. -/
def disambiguate (filename : String) (ms : List MatchT)
    (userInput : Option String) (pre : List String) :
    PyResult (Option Breakpoint) :=
  match userInput with
  | none => .ok (pre ++ ["Aborting: no breakpoint created"]) none
  | some input =>
    if input = "" then
      match ms.get? 1 with
      | some m => .ok pre (some ⟨filename, m.line_no, none⟩)
      | none => .exc pre "IndexError"
    else
      match pyInt input with
      | none => .ok (pre ++ ["Invalid index choice: " ++ input]) none
      | some choice =>
        if choice < 1 ∨ (ms.length : Int) < choice then
          .ok (pre ++ ["Choice must be in range 1-" ++ toString ms.length])
            none
        else
          match ms.get? choice.toNat with
          | some m => .ok pre (some ⟨filename, m.line_no, none⟩)
          | none => .exc pre "IndexError"

/-- `BreakCommand.break_on_dsl_sloc`: parse the location, collect matches,
then resolve directly (1 match), report (0 matches) or disambiguate. -/
def break_on_dsl_sloc (filename : String) (props : List PropertyT)
    (userInput : Option String) (dsl_sloc : String) :
    PyResult (Option Breakpoint) :=
  let query := DSLLocation.parse dsl_sloc
  match collectMatches query props with
  | [] => .ok ["No match for " ++ query.str] none
  | [m] => .ok [] (some ⟨filename, m.line_no, none⟩)
  | m0 :: m1 :: rest =>
    let ms := m0 :: m1 :: rest
    disambiguate filename ms userInput
      (("Multiple matches for " ++ query.str ++ ":") :: listingLines filename ms
        ++ ["Please chose one of the above locations [default=1]:"])

/-- The dispatch + condition-attachment tail of `BreakCommand.invoke`:
route on `':' in spec`, then, when a (truthy) condition was given, perform
`bp.condition = cond` — on a `None` breakpoint this raises `AttributeError`
(only `gdb.error` is caught); an invalid condition (modelled by the host
predicate `condOk`) raises `gdb.error`, which is caught and printed, leaving
the already-created breakpoint in place without a condition. -/
def breakDispatch (condOk : String → Bool) (filename : String)
    (props : List PropertyT) (userInput : Option String) (spec : String)
    (cond : Option String) : PyResult (Option Breakpoint) :=
  let step1 : PyResult (Option Breakpoint) :=
    if spec.data.contains ':' then
      break_on_dsl_sloc filename props userInput spec
    else
      let r := break_on_property filename props spec
      .ok r.1 r.2
  match step1 with
  | .exc out n => .exc out n
  | .ok out bp =>
    match cond with
    | none => .ok out bp
    | some c =>
      if c = "" then .ok out bp
      else
        match bp with
        | none => .exc out "AttributeError"
        | some b =>
          if condOk c then .ok out (some { b with condition := some c })
          else .ok (out ++ ["Invalid condition: " ++ c]) (some b)

/-- `BreakCommand.invoke`: tokenize with `arg.strip().split(None, 2)` and
validate the token shape before dispatching. -/
def invoke (condOk : String → Bool) (filename : String)
    (props : List PropertyT) (userInput : Option String) (arg : String) :
    PyResult (Option Breakpoint) :=
  match pySplitMax2 arg with
  | [] => .ok ["Breakpoint specification missing"] none
  | [spec] => breakDispatch condOk filename props userInput spec none
  | [spec, if_kwd, cond] =>
    if if_kwd = "if" then
      breakDispatch condOk filename props userInput spec (some cond)
    else .ok ["Invalid arguments (second arg should be \"if\")"] none
  | _ => .ok ["Invalid number of arguments"] none

end BreakCommand

/-! ## Specification-side descriptions and concrete fixtures -/

/-- The blank separator line preceding the first emitted line of a non-empty
group. -/
def StatePrinter.sepGroup : List String → List String
  | [] => []
  | l :: ls => "" :: l :: ls

/-- The spec's description of one ScopeState group: Bindings in declaration
order (`name = value`), then finished ExpressionEvents in completion order
(`expression -> value`), then the in-flight expression (`Currently
evaluating`, plus its declared source location), the whole group preceded by
a blank separator line when non-empty. -/
def StatePrinter.scopeBlockSpec (ctx : RenderCtx) (we wl : Bool)
    (ss : ScopeState) : List String :=
  StatePrinter.sepGroup
    (ss.bindings.map (StatePrinter.print_binding ctx we wl)
      ++ ss.doneExprs.map (StatePrinter.doneExprLine ctx we wl)
      ++ StatePrinter.scopeCurrLines ctx ss)

/-- The spec's description of the unfiltered rendering order: header naming
the running Property, its declared source location if any, the
memoization-lookup note if applicable, then each ScopeState group,
outermost first. -/
def StatePrinter.unfilteredRenderSpec (ctx : RenderCtx) (we wl : Bool)
    (st : DecodedState) : List String :=
  ["Running " ++ ctx.prop_repr st.property]
  ++ (match st.property.dsl_sloc with
      | some sl => ["from " ++ sl]
      | none => [])
  ++ (if st.in_memoization_lookup
      then ["About to return a memoized result..."] else [])
  ++ (st.scopes.map (StatePrinter.scopeBlockSpec ctx we wl)).flatten

/-- All bindings of a snapshot in scan order: ScopeStates outermost first,
and declaration order within a ScopeState. -/
def allBindings (scopes : List ScopeState) : List Binding :=
  (scopes.map ScopeState.bindings).flatten

/-- Two properties whose bodies both contain an expression start mapped to
DSL line `foo.py:5` (at distinct columns), at generated lines 100 and 200. -/
def exProps : List PropertyT :=
  [ ⟨"Node.P1", some 10, [Event.exprStart (some ⟨"foo.py", 5, some 1⟩) 100]⟩,
    ⟨"Node.P2", some 20, [Event.exprStart (some ⟨"foo.py", 5, some 8⟩) 200]⟩ ]

/-- A render context with trivial format helpers and a frame holding
`x_var = 1` (any other variable reads as `2`). -/
def exCtx : RenderCtx :=
  { name_repr := fun b => b.dsl_name
    expr_repr := fun _ => "x + 1"
    prop_repr := fun _ => "Prop.p"
    frame := fun n => if n == "x_var" then "1" else "2" }

/-- A one-scope snapshot with binding `x` (stored as `X_Var`), one finished
expression and one in-flight expression. -/
def exState : DecodedState :=
  { property := ⟨none⟩
    in_memoization_lookup := false
    scopes := [ ⟨[⟨"x", "X_Var"⟩], [⟨"Res_1", none⟩],
                some ⟨"Res_2", some "spec.py:3"⟩⟩ ] }

/-- A snapshot where an outer and an inner scope both bind `x`. -/
def exShadowState : DecodedState :=
  { property := ⟨none⟩
    in_memoization_lookup := false
    scopes := [ ⟨[⟨"x", "Outer_X"⟩], [], none⟩,
                ⟨[⟨"x", "Inner_X"⟩], [], none⟩ ] }

/-- Properties for qualified-name lookup: one with a body, one without. -/
def exProps7 : List PropertyT :=
  [ ⟨"Foo.P", some 42, []⟩, ⟨"Foo.Q", none, []⟩ ]

/-- A 60-character display text. -/
def longVal : String := String.mk (List.replicate 60 'a')

/-! ## Helper lemmas -/

/-- Once `is_first` is cleared, `print_info` just appends. -/
theorem foldl_printInfoStep_false (ls out : List String) :
    ls.foldl StatePrinter.printInfoStep (out, false) = (out ++ ls, false) := by
  induction ls generalizing out with
  | nil => simp
  | cons l ls ih => simp [StatePrinter.printInfoStep, ih]

/-- Emitting a group through `print_info` starting fresh prepends one blank
separator line exactly when the group is non-empty. -/
theorem foldl_printInfoStep_true (out : List String) (ls : List String) :
    ls.foldl StatePrinter.printInfoStep (out, true)
      = (out ++ StatePrinter.sepGroup ls, ls.isEmpty) := by
  cases ls with
  | nil => simp [StatePrinter.sepGroup]
  | cons l ls =>
    simp [StatePrinter.printInfoStep, StatePrinter.sepGroup,
      foldl_printInfoStep_false]

/-- The imperative scope loop body equals the declarative group description. -/
theorem renderScope_eq (ctx : RenderCtx) (we wl : Bool) (out : List String)
    (ss : ScopeState) :
    StatePrinter.renderScope ctx we wl out ss
      = out ++ StatePrinter.scopeBlockSpec ctx we wl ss := by
  unfold StatePrinter.renderScope StatePrinter.scopeBlockSpec
  rw [← List.foldl_map (StatePrinter.print_binding ctx we wl)
        StatePrinter.printInfoStep,
      ← List.foldl_map (StatePrinter.doneExprLine ctx we wl)
        StatePrinter.printInfoStep,
      ← List.foldl_append, ← List.foldl_append,
      foldl_printInfoStep_true]
  simp [List.append_assoc]

/-- Folding the scope loop over all scopes concatenates the groups in order. -/
theorem foldl_renderScope (ctx : RenderCtx) (we wl : Bool)
    (scopes : List ScopeState) (out : List String) :
    scopes.foldl (StatePrinter.renderScope ctx we wl) out
      = out ++ (scopes.map (StatePrinter.scopeBlockSpec ctx we wl)).flatten := by
  induction scopes generalizing out with
  | nil => simp
  | cons ss rest ih => simp [renderScope_eq, ih]

/-- The nested binding-search loops equal `find?` over the flattened binding
list (outermost scope first, declaration order within a scope). -/
theorem find_binding_eq (scopes : List ScopeState) (v : String) :
    StatePrinter.find_binding scopes v
      = (allBindings scopes).find? (fun b => b.dsl_name == v) := by
  induction scopes with
  | nil => rfl
  | cons ss rest ih =>
    unfold StatePrinter.find_binding
    rw [allBindings, List.map_cons, List.flatten_cons, List.find?_append, ih]
    cases h : ss.bindings.find? (fun b => b.dsl_name == v) <;>
      simp [h, Option.orElse, allBindings]

/-- The head of a non-empty filter is what `find?` returns. -/
theorem find?_of_filter {α : Type} (p : α → Bool) :
    ∀ (l : List α) (b : α) (bs : List α),
      l.filter p = b :: bs → l.find? p = some b := by
  intro l
  induction l with
  | nil => intro b bs h; simp at h
  | cons x xs ih =>
    intro b bs h
    cases hx : p x with
    | true =>
      rw [List.filter_cons_of_pos hx] at h
      rw [List.find?_cons_of_pos _ hx]
      exact congrArg some (List.cons.inj h).1
    | false =>
      have hx' : ¬ p x = true := by simp [hx]
      rw [List.filter_cons_of_neg hx'] at h
      rw [List.find?_cons_of_neg _ hx']
      exact ih b bs h

/-- Evaluation of the by-location match collection on `exProps` for the query
`foo.py:5`: both expression-start events match (column-less query), listed in
discovery order — generated lines 100 then 200. -/
theorem exMatches_eval :
    collectMatches (DSLLocation.parse "foo.py:5") exProps
      = [⟨"Node.P1", ⟨"foo.py", 5, some 1⟩, 100⟩,
         ⟨"Node.P2", ⟨"foo.py", 5, some 8⟩, 200⟩] := by
  simp [collectMatches, processEvents, exProps, DSLLocation.parse,
    DSLLocation.matchesLoc, splitChar, splitCharAux, digitsCore]

/-! ## Claim theorems -/

/-- Claim C1: the claim says that, with N>1 by-location matches listed 1..N,
a valid numeric choice i creates the breakpoint at the i-th listed match and
empty input selects the first.  The code indexes `matches[choice]` with the
raw 1-based choice (0-based list indexing), so on two matches at generated
lines [100, 200]: choice `1` and empty input both create the breakpoint at
line 200 (the second listed match), and choice `2` (= N, accepted by the
code's own range check) raises an uncaught `IndexError`.  Out-of-range `0`
and `3`, non-numeric input and end-of-input indeed create no breakpoint. -/
theorem break_dsl_choice_off_by_one :
    (collectMatches (DSLLocation.parse "foo.py:5") exProps).map MatchT.line_no
      = [100, 200]
    ∧ (BreakCommand.break_on_dsl_sloc "gen.adb" exProps (some "1")
        "foo.py:5").bpOf = some ⟨"gen.adb", 200, none⟩
    ∧ (BreakCommand.break_on_dsl_sloc "gen.adb" exProps (some "")
        "foo.py:5").bpOf = some ⟨"gen.adb", 200, none⟩
    ∧ (BreakCommand.break_on_dsl_sloc "gen.adb" exProps (some "2")
        "foo.py:5").isExc = true
    ∧ (BreakCommand.break_on_dsl_sloc "gen.adb" exProps (some "0")
        "foo.py:5").bpOf = none
    ∧ (BreakCommand.break_on_dsl_sloc "gen.adb" exProps (some "3")
        "foo.py:5").bpOf = none
    ∧ (BreakCommand.break_on_dsl_sloc "gen.adb" exProps (some "junk")
        "foo.py:5").bpOf = none
    ∧ (BreakCommand.break_on_dsl_sloc "gen.adb" exProps none
        "foo.py:5").bpOf = none := by
  refine ⟨by rw [exMatches_eval]; rfl, ?_, ?_, ?_, ?_, ?_, ?_, ?_⟩ <;>
    (unfold BreakCommand.break_on_dsl_sloc
     simp only [exMatches_eval]
     decide)

/-- Claim C2: the claim says every failed or aborted resolution returns
cleanly with no breakpoint, even when an `if` condition was supplied.
Without a condition, the failure path is indeed clean; but with a condition,
the code performs `bp.condition = cond` on the `None` returned by the failed
resolution, raising an uncaught `AttributeError` (only `gdb.error` is
caught). -/
theorem break_cond_after_failed_resolution :
    BreakCommand.invoke (fun _ => true) "gen.adb" [] none "nosuch.py:9 if x = 1"
      = .exc ["No match for nosuch.py:9"] "AttributeError"
    ∧ BreakCommand.invoke (fun _ => true) "gen.adb" [] none "nosuch.py:9"
      = .ok ["No match for nosuch.py:9"] none := ⟨by decide, by decide⟩

/-- Claim C3: the claim says extra trailing `state` arguments are reported
and no rendering is performed.  The code prints the error but then still
delegates to the printer: on `state x y z` the output is the error line
followed by the rendering of binding `x` (the second conjunct shows that the
trailing line is exactly the state output a filtered rendering produces). -/
theorem state_extra_args_still_renders :
    StateCommand.invoke exCtx (some exState) "x y z"
      = ["Invalid extra arguments: y z", "x = 1"]
    ∧ StatePrinter.renderLines exCtx true false (some "x") (some exState)
      = ["x = 1"] := ⟨by decide, by decide⟩

/-- Claim C4: unfiltered `state` rendering emits exactly, in order: the
`Running` header, the property's declared source location if any, the
memoization note if applicable, then for each ScopeState outermost first its
bindings in declaration order, its finished expressions in completion order,
and the in-flight expression, each non-empty scope group preceded by one
blank separator line. -/
theorem state_unfiltered_render_order (ctx : RenderCtx) (we wl : Bool)
    (st : DecodedState) :
    StatePrinter.renderLines ctx we wl none (some st)
      = StatePrinter.unfilteredRenderSpec ctx we wl st := by
  unfold StatePrinter.renderLines StatePrinter.unfilteredRenderSpec
  simp [pyTruthy, foldl_renderScope]

/-- Claim C5: with ellipsis enabled, display text longer than 50 characters
is rendered as its first 50 characters plus the fixed `...` marker, text of
length at most 50 is unchanged, and with ellipsis disabled (the `f` flag,
wired by `state /f`) no truncation happens regardless of length. -/
theorem ellipsis_truncation (frame : String → String) (v : String) :
    (StatePrinter.ellipsis_limit < (frame (pyLower v)).length →
       StatePrinter.value_image frame true v
         = (frame (pyLower v)).take StatePrinter.ellipsis_limit ++ "...")
    ∧ ((frame (pyLower v)).length ≤ StatePrinter.ellipsis_limit →
       StatePrinter.value_image frame true v = frame (pyLower v))
    ∧ StatePrinter.value_image frame false v = frame (pyLower v)
    ∧ (∀ (ctx : RenderCtx) (st : Option DecodedState),
        StateCommand.invoke ctx st "/f"
          = StatePrinter.renderLines ctx false false none st) := by
  refine ⟨?_, ?_, ?_, ?_⟩
  · intro h
    unfold StatePrinter.value_image
    simp [h]
  · intro h
    unfold StatePrinter.value_image
    simp [Nat.not_lt.mpr h]
  · rfl
  · intro ctx st; rfl

/-- Witness for C5 at a 60-character value: the rendered text is the first
50 characters plus the marker. -/
theorem ellipsis_truncation_witness :
    StatePrinter.value_image (fun _ => longVal) true "v"
      = longVal.take StatePrinter.ellipsis_limit ++ "..." :=
  (ellipsis_truncation (fun _ => longVal) "v").1 (by decide)

/-- Claim C6: with a variable-name filter, if exactly one Binding in the
snapshot has that spec-level name, exactly that binding's line is rendered
and nothing else; if no Binding matches, only the `No binding called`
message is rendered. -/
theorem state_filter_short_circuit (ctx : RenderCtx) (we wl : Bool)
    (st : DecodedState) (v : String) (hv : v ≠ "") :
    (∀ b, (allBindings st.scopes).filter (fun b' => b'.dsl_name == v) = [b] →
       StatePrinter.renderLines ctx we wl (some v) (some st)
         = [StatePrinter.print_binding ctx we wl b])
    ∧ ((∀ b ∈ allBindings st.scopes, b.dsl_name ≠ v) →
       StatePrinter.renderLines ctx we wl (some v) (some st)
         = ["No binding called " ++ v]) := by
  constructor
  · intro b h
    have hf : StatePrinter.find_binding st.scopes v = some b := by
      rw [find_binding_eq]; exact find?_of_filter _ _ b [] h
    unfold StatePrinter.renderLines
    simp [pyTruthy, hv, hf]
  · intro h
    have hf : StatePrinter.find_binding st.scopes v = none := by
      rw [find_binding_eq, List.find?_eq_none]
      intro b hb
      simpa using h b hb
    unfold StatePrinter.renderLines
    simp [pyTruthy, hv, hf]

/-- Witness for C6 on a snapshot with a unique binding `x`. -/
theorem state_filter_short_circuit_witness :
    StatePrinter.renderLines exCtx true false (some "x") (some exState)
      = [StatePrinter.print_binding exCtx true false ⟨"x", "X_Var"⟩] :=
  (state_filter_short_circuit exCtx true false exState "x" (by decide)).1
    ⟨"x", "X_Var"⟩ (by decide)

/-- Claim C7: qualified-name breakpoint lookup is case-insensitive — two
spellings with the same lower-casing find the same property and yield the
same breakpoint position; an unmatched name reports `No such property` with
no breakpoint; a matched property without a body reports it has no code with
no breakpoint. -/
theorem break_qualname_case_insensitive (filename : String)
    (props : List PropertyT) (a b : String) (h : pyLower a = pyLower b) :
    (props.find? (fun p => pyLower p.name == pyLower a)
       = props.find? (fun p => pyLower p.name == pyLower b))
    ∧ (BreakCommand.break_on_property filename props a).2
       = (BreakCommand.break_on_property filename props b).2
    ∧ (props.find? (fun p => pyLower p.name == pyLower a) = none →
        BreakCommand.break_on_property filename props a
          = (["No such property: " ++ a], none))
    ∧ (∀ p, props.find? (fun p' => pyLower p'.name == pyLower a) = some p →
        p.body_start = none →
        BreakCommand.break_on_property filename props a
          = (["Cannot break on " ++ p.name ++ ": it has no code"], none)) := by
  refine ⟨by rw [h], ?_, ?_, ?_⟩
  · unfold BreakCommand.break_on_property
    rw [h]
    cases hf : props.find? (fun p => pyLower p.name == pyLower b) with
    | none => simp [hf]
    | some p => cases hb : p.body_start <;> simp [hf, hb]
  · intro hn
    unfold BreakCommand.break_on_property
    rw [hn]
  · intro p hp hb
    unfold BreakCommand.break_on_property
    rw [hp]
    simp [hb]

/-- Witness for C7: `FOO.p` and `foo.P` resolve to the same breakpoint. -/
theorem break_qualname_case_insensitive_witness :
    (BreakCommand.break_on_property "gen.adb" exProps7 "FOO.p").2
      = (BreakCommand.break_on_property "gen.adb" exProps7 "foo.P").2 :=
  (break_qualname_case_insensitive "gen.adb" exProps7 "FOO.p" "foo.P"
    (by decide)).2.1

/-- Claim C8: `break` accepts one token (unconditional) or three tokens with
middle token `if` (conditional); an empty argument and a two-token argument
are rejected with no breakpoint, and a three-token form whose middle token
is not `if` is rejected with its specific message.  (`split(None, 2)` never
produces more than three tokens.) -/
theorem break_invoke_arity (condOk : String → Bool) (filename : String)
    (props : List PropertyT) (inp : Option String) (arg : String) :
    (pySplitMax2 arg = [] →
       BreakCommand.invoke condOk filename props inp arg
         = .ok ["Breakpoint specification missing"] none)
    ∧ (∀ s k, pySplitMax2 arg = [s, k] →
       BreakCommand.invoke condOk filename props inp arg
         = .ok ["Invalid number of arguments"] none)
    ∧ (∀ s k c, pySplitMax2 arg = [s, k, c] → k ≠ "if" →
       BreakCommand.invoke condOk filename props inp arg
         = .ok ["Invalid arguments (second arg should be \"if\")"] none)
    ∧ (∀ s, pySplitMax2 arg = [s] →
       BreakCommand.invoke condOk filename props inp arg
         = BreakCommand.breakDispatch condOk filename props inp s none)
    ∧ (∀ s c, pySplitMax2 arg = [s, "if", c] →
       BreakCommand.invoke condOk filename props inp arg
         = BreakCommand.breakDispatch condOk filename props inp s (some c)) := by
  refine ⟨?_, ?_, ?_, ?_, ?_⟩
  · intro h; unfold BreakCommand.invoke; rw [h]
  · intro s k h; unfold BreakCommand.invoke; rw [h]
  · intro s k c h hk
    unfold BreakCommand.invoke
    rw [h]
    simp [hk]
  · intro s h; unfold BreakCommand.invoke; rw [h]
  · intro s c h
    unfold BreakCommand.invoke
    rw [h]
    simp

/-- Witness for C8: a two-token `break` argument is rejected. -/
theorem break_invoke_arity_witness :
    BreakCommand.invoke (fun _ => true) "gen.adb" [] none "a b"
      = .ok ["Invalid number of arguments"] none :=
  (break_invoke_arity (fun _ => true) "gen.adb" [] none "a b").2.1 "a" "b"
    (by decide)

/-- Claim C9: when the filter matches several Bindings, the rendered one is
the first match in scan order — ScopeStates outermost first, declaration
order within a ScopeState (the head of the filtered flattened binding
list); shadowing inner-scope bindings are never rendered. -/
theorem state_filter_first_match (ctx : RenderCtx) (we wl : Bool)
    (st : DecodedState) (v : String) (b : Binding) (bs : List Binding)
    (hv : v ≠ "")
    (h : (allBindings st.scopes).filter (fun b' => b'.dsl_name == v)
          = b :: bs) :
    StatePrinter.renderLines ctx we wl (some v) (some st)
      = [StatePrinter.print_binding ctx we wl b] := by
  have hf : StatePrinter.find_binding st.scopes v = some b := by
    rw [find_binding_eq]; exact find?_of_filter _ _ b bs h
  unfold StatePrinter.renderLines
  simp [pyTruthy, hv, hf]

/-- Witness for C9 on a snapshot where outer and inner scopes both bind `x`:
the outer one is rendered. -/
theorem state_filter_first_match_witness :
    StatePrinter.renderLines exCtx true true (some "x") (some exShadowState)
      = [StatePrinter.print_binding exCtx true true ⟨"x", "Outer_X"⟩] :=
  state_filter_first_match exCtx true true exShadowState "x" ⟨"x", "Outer_X"⟩
    [⟨"x", "Inner_X"⟩] (by decide) (by decide)

/-- Claim C10: every live value read during rendering goes through
`value_image`, which lower-cases the stored generated variable name before
querying the frame, so the rendered value is the same for any two stored
spellings with equal lower-casing. -/
theorem value_image_case_insensitive (frame : String → String) (we : Bool)
    (n1 n2 : String) (h : pyLower n1 = pyLower n2) :
    StatePrinter.value_image frame we n1
      = StatePrinter.value_image frame we n2 := by
  unfold StatePrinter.value_image
  rw [h]

/-- Witness for C10: `X_Var` and `x_VAR` read the same frame slot. -/
theorem value_image_case_insensitive_witness :
    StatePrinter.value_image (fun s => if s == "x_var" then "7" else "?")
        true "X_Var"
      = StatePrinter.value_image (fun s => if s == "x_var" then "7" else "?")
        true "x_VAR" :=
  value_image_case_insensitive _ true "X_Var" "x_VAR" (by decide)
